import Mathlib

/-!
Verification development for the flutter-cli debug-session core:
a shallow embedding of `src/vm_service.rs`, `src/state.rs` and
`src/process.rs`, together with theorems about the RPC response loop,
the handshake stream parser, the session record store and the
session reconciler (`ensure_connection`).

Modelling conventions:
* JSON values (`serde_json::Value`) become the inductive `Json` below.
  All numeric values that the embedded code inspects (`id`, `code`,
  `pid`, `started_at`) are integers in the source (`i64`/`u32`/`u64`),
  so numbers are modelled as `Int`; a non-integer number never compares
  equal to an integer id in serde_json, and none appears in any
  inspected field, so floats are not represented.
* Every fallible foreign-world step (socket reads, file IO, spawning)
  is an explicit input: a `send` call consumes a list of inbound
  frames, the handshake parser consumes a list of timestamped lines,
  `ensure_connection` consumes an environment of oracle answers and
  produces, besides its result, the trace of external effects it
  performed, in order.
-/

/-- Model of `serde_json::Value`.  Objects are association lists with
the keys unique (the serde_json map type has unique keys); `get` is the first
lookup. -/
inductive Json where
  | null : Json
  | bool : Bool → Json
  | num : Int → Json
  | str : String → Json
  | arr : List Json → Json
  | obj : List (String × Json) → Json
  deriving Repr

/-- Model of `Value::get(key)`: field lookup, `none` on non-objects. -/
def Json.get : Json → String → Option Json
  | .obj fields, key => fields.lookup key
  | _, _ => none

/-- Model of `Value::as_str`. -/
def Json.asStr : Json → Option String
  | .str s => some s
  | _ => none

/-- Model of `Value::as_i64` (integer-valued numbers only; see module comment). -/
def Json.asInt : Json → Option Int
  | .num n => some n
  | _ => none

/-- Model of `Value::is_array` + `as_array().and_then(first)`: `some` of the
first element when the value is a nonempty array. -/
def Json.firstOfArray : Json → Option Json
  | .arr (x :: _) => some x
  | _ => none

/-! ## RPC Transport Client (`src/vm_service.rs`) -/

/-- One inbound item of `self.ws.next()`:
* `text j` — an `Ok(Message::Text)` frame; `j = none` when the text
  does not parse as JSON (`serde_json` fails), `j = some v` otherwise;
* `nonText` — an `Ok` frame that is not a text frame;
* `readErr` — an `Err` item reported by the transport.
The stream ending (`next()` returning `None`) is the end of the list. -/
inductive Frame where
  | text : Option Json → Frame
  | nonText : Frame
  | readErr : Frame
  deriving Repr

/-- Outcome of one `send` call. -/
inductive SendOutcome where
  /-- returned `Ok(resp["result"])` (`{}` when the field is absent) -/
  | ok : Json → SendOutcome
  /-- returned `Err(anyhow!("VM Service error {code}: {msg}"))` -/
  | remoteError : Int → String → SendOutcome
  /-- the `?` on `serde_json::Value::deserialize` fired: a text frame
      did not parse as JSON -/
  | parseError : SendOutcome
  /-- the stream ended: `Err(anyhow!("WebSocket closed without response"))` -/
  | connClosed : SendOutcome
  deriving Repr

/-- Negation of `resp_id != &serde_json::json!(id)`: the id field equals the
integer id just sent. -/
def idMatches (rid : Json) (id : Int) : Bool :=
  match rid with
  | .num m => m == id
  | _ => false

/-- Model of `error.get("code").and_then(as_i64).unwrap_or(0)`. -/
def errCode (error : Json) : Int :=
  ((error.get "code").bind Json.asInt).getD 0

/-- Model of `error.get("message").and_then(as_str).unwrap_or("unknown error")`. -/
def errMsg (error : Json) : String :=
  ((error.get "message").bind Json.asStr).getD "unknown error"

/-- The `while let Some(msg) = self.ws.next().await` loop of
`VmServiceConnection::send` (src/vm_service.rs lines 39-65), reading
inbound frames until a response whose id matches `id` arrives. -/
def recvLoop (id : Int) : List Frame → SendOutcome
  | [] => .connClosed
  | .nonText :: rest => recvLoop id rest
  | .readErr :: rest => recvLoop id rest
  | .text none :: _ => .parseError
  | .text (some resp) :: rest =>
    match resp.get "id" with
    | none => recvLoop id rest
    | some rid =>
      if idMatches rid id then
        match resp.get "error" with
        | some error => .remoteError (errCode error) (errMsg error)
        | none => .ok ((resp.get "result").getD (.obj []))
      else recvLoop id rest

/-- The `VmServiceConnection` struct: the only state the embedded claims depend on
is the id counter (`next_id: i64`; one increment per call can never
overflow an `i64` within the lifetime of a connection, so it is modelled as an
unbounded integer). -/
structure VmServiceConnection where
  next_id : Int
  deriving Repr

/-- Construction: `VmServiceConnection::connect` initialises `next_id` to 1. -/
def VmServiceConnection.connectInit : VmServiceConnection := ⟨1⟩

/-- The JSON-RPC 2.0 envelope serialized by `send`. -/
def envelope (id : Int) (method : String) (params : Json) : Json :=
  .obj [("jsonrpc", .str "2.0"), ("id", .num id), ("method", .str method),
        ("params", params)]

/-- Embeds `VmServiceConnection::send`: assign the next request id, build the
envelope, write it (the write is assumed delivered; a write failure
aborts before any read and is outside the embedded claims), then run
the response loop over the inbound frames.  Returns the envelope
written, the outcome, and the updated connection. -/
def VmServiceConnection.send (c : VmServiceConnection) (method : String)
    (params : Json) (frames : List Frame) :
    Json × SendOutcome × VmServiceConnection :=
  let id := c.next_id
  (envelope id method params, recvLoop id frames, ⟨c.next_id + 1⟩)

/-- Connection state after `n` calls to `send` starting from `connect`. -/
def connAfter : Nat → VmServiceConnection
  | 0 => VmServiceConnection.connectInit
  | n + 1 => (VmServiceConnection.send (connAfter n) "m" (.obj []) []).2.2

/-- The request id assigned by the `n`-th call to `send` (`n ≥ 1`):
the id field of the envelope that call writes. -/
def idOfCall (n : Nat) : Int :=
  (connAfter (n - 1)).next_id

/-! ## Session Record Store (`src/state.rs`) -/

/-- The `State` struct (src/state.rs lines 8-16): the persisted session record.
`pid` is a `u32` and `started_at` a `u64` in the source; they are
modelled as `Nat` and the serde range checks (`< 2^32`, `< 2^64`) are
kept explicit in the decoder. -/
structure StateRec where
  pid : Nat
  ws_uri : String
  app_id : Option String
  cwd : String
  args : List String
  started_at : Nat
  deriving Repr, DecidableEq

/-- serde serialization of `State` (derived `Serialize`, declaration
field order; `None` serializes as `null`). -/
def encodeState (s : StateRec) : Json :=
  .obj [("pid", .num s.pid),
        ("ws_uri", .str s.ws_uri),
        ("app_id", match s.app_id with | some a => .str a | none => .null),
        ("cwd", .str s.cwd),
        ("args", .arr (s.args.map .str)),
        ("started_at", .num s.started_at)]

/-- serde deserialization of a `u32` field: a nonnegative integer
below `2 ^ 32`. -/
def decodeU32 (j : Json) : Option Nat :=
  match j with
  | .num (.ofNat m) => if m < 2 ^ 32 then some m else none
  | _ => none

/-- serde deserialization of a `u64` field: a nonnegative integer
below `2 ^ 64`. -/
def decodeU64 (j : Json) : Option Nat :=
  match j with
  | .num (.ofNat m) => if m < 2 ^ 64 then some m else none
  | _ => none

/-- serde deserialization of an `Option<String>` field. -/
def decodeOptStr (j : Json) : Option (Option String)
  := match j with
  | .null => some none
  | .str s => some (some s)
  | _ => none

/-- serde deserialization of a `Vec<String>` field. -/
def decodeStrList (j : Json) : Option (List String) :=
  match j with
  | .arr xs => xs.mapM Json.asStr
  | _ => none

/-- serde deserialization of `State` (derived `Deserialize`): every
field present with the right type (`app_id`, an `Option`, also accepts
`null`); anything else is a parse error. -/
def decodeState (j : Json) : Option StateRec := do
  let pid ← (j.get "pid").bind decodeU32
  let ws_uri ← (j.get "ws_uri").bind Json.asStr
  let app_id ← (j.get "app_id").bind decodeOptStr
  let cwd ← (j.get "cwd").bind Json.asStr
  let args ← (j.get "args").bind decodeStrList
  let started_at ← (j.get "started_at").bind decodeU64
  pure ⟨pid, ws_uri, app_id, cwd, args, started_at⟩

/-- Storage IO failure (`anyhow` error out of read/write/parse). -/
inductive IoErr where
  | ioErr : IoErr
  deriving Repr, DecidableEq

/-- Backing file system of the store: path → file contents.  File
contents are represented by the JSON value they hold (the serde_json
printer/parser round-trips the tree, so `to_string_pretty` followed by
`from_str` is the identity on the tree and is not re-modelled). -/
def Fs : Type := List (String × Json)

/-- The function `state_file_path` derives the file name deterministically from the
project directory (first 16 hex chars of SHA-256 of the path).  The
definitions below take the derivation as an explicit parameter
`pathOf`; every theorem holds for an arbitrary such function. -/
def statePath (pathOf : String → String) (projectDir : String) : String :=
  pathOf projectDir

/-- Embeds `State::load` (src/state.rs lines 19-27): absent file is `Ok(None)`;
unparsable contents are an `IoErr`. -/
def StateRec.load (pathOf : String → String) (fs : Fs)
    (projectDir : String) : Except IoErr (Option StateRec) :=
  match fs.lookup (statePath pathOf projectDir) with
  | none => .ok none
  | some contents =>
    match decodeState contents with
    | some s => .ok (some s)
    | none => .error .ioErr

/-- Embeds `State::save` (src/state.rs lines 29-35): overwrite semantics,
last write wins (the newest entry shadows older ones under `lookup`). -/
def StateRec.save (pathOf : String → String) (fs : Fs)
    (projectDir : String) (s : StateRec) : Fs :=
  (statePath pathOf projectDir, encodeState s) :: fs

/-- Embeds `State::remove` (src/state.rs lines 37-43): idempotent deletion. -/
def StateRec.remove (pathOf : String → String) (fs : Fs)
    (projectDir : String) : Fs :=
  fs.filter (fun kv => kv.1 ≠ statePath pathOf projectDir)

/-! ## Handshake Stream Parser (`src/process.rs`,
`parse_flutter_machine_output`) -/

/-- One item produced by `reader.lines()`:
* `line j` — an `Ok` line; `j = none` when `serde_json::from_str`
  fails on it (blank line, banner, warning), `j = some v` otherwise;
* `ioErr` — an `Err` from the buffered reader.
Each item carries the instant (seconds since spawn) at which it was
received, against which the deadline test `Instant::now() > deadline`
is evaluated.  The stream ending is the end of the list. -/
inductive LineItem where
  | line : Option Json → LineItem
  | ioErr : LineItem
  deriving Repr

/-- Handshake failure modes of `parse_flutter_machine_output`. -/
inductive PErr where
  /-- the error `Timeout waiting for flutter run to start (120s)` -/
  | startupTimeout : PErr
  /-- the error `Error reading flutter stdout` -/
  | readErr : PErr
  /-- the error `Flutter app exited during startup` (on `app.stop` /
      `daemon.shutdown`) -/
  | startupAborted : PErr
  /-- the error `flutter run exited without providing VM Service URI` -/
  | noEndpoint : PErr
  deriving Repr, DecidableEq

instance {ε α : Type} [DecidableEq ε] [DecidableEq α] :
    DecidableEq (Except ε α) := fun a b =>
  match a, b with
  | .error e, .error f =>
    if h : e = f then .isTrue (by rw [h]) else .isFalse (by simp [h])
  | .error _, .ok _ => .isFalse (by simp)
  | .ok _, .error _ => .isFalse (by simp)
  | .ok x, .ok y =>
    if h : x = y then .isTrue (by rw [h]) else .isFalse (by simp [h])

/-- What a parser run produced: its result, whether `kill_process(pid)`
ran before returning, and whether `State::remove(project_dir)` ran
before returning. -/
structure PResult where
  res : Except PErr (String × Option String)
  killed : Bool
  removed : Bool
  deriving Repr, DecidableEq

/-- The per-line event dispatch of `parse_flutter_machine_output`:
given a parsed value, unwrap a single-element array, read the `event`
name, and for `app.debugPort` extract `params.wsUri` / `params.appId`.
Returns the extracted `wsUri` (if any), the updated `app_id`, and
whether the line is a shutdown event. -/
def dispatchEvent (event : Json) (appId : Option String) :
    Option String × Option String × Bool :=
  let event := match event with
    | .arr _ => event.firstOfArray
    | _ => some event
  match event with
  | none => (none, appId, false)
  | some e =>
    match (e.get "event").bind Json.asStr with
    | some "app.debugPort" =>
      match e.get "params" with
      | some params =>
        let uri := (params.get "wsUri").bind Json.asStr
        let appId' := match (params.get "appId").bind Json.asStr with
          | some a => some a
          | none => appId
        (uri, appId', false)
      | none => (none, appId, false)
    | some "app.stop" => (none, appId, true)
    | some "daemon.shutdown" => (none, appId, true)
    | _ => (none, appId, false)

/-- The `for line in reader.lines()` loop of
`parse_flutter_machine_output` (src/process.rs lines 90-174) with the
post-loop endpoint check.  The loop breaks as soon as `ws_uri` is set,
so at every loop entry `ws_uri` is still `None`; the running state is
therefore just the `app_id` seen so far.  `d` is the deadline
(120 seconds after spawn). -/
def parseLoop (d : Nat) (appId : Option String) :
    List (Nat × LineItem) → PResult
  | [] => ⟨.error .noEndpoint, true, true⟩
  | (t, item) :: rest =>
    if t > d then ⟨.error .startupTimeout, true, true⟩
    else
      match item with
      | .ioErr => ⟨.error .readErr, false, false⟩
      | .line none => parseLoop d appId rest
      | .line (some event) =>
        match dispatchEvent event appId with
        | (_, _, true) => ⟨.error .startupAborted, false, true⟩
        | (some uri, appId', false) => ⟨.ok (uri, appId'), false, false⟩
        | (none, appId', false) => parseLoop d appId' rest

/-- Embeds `parse_flutter_machine_output`: run the loop from an empty state
with the 120-second deadline. -/
def parse_flutter_machine_output (ls : List (Nat × LineItem)) : PResult :=
  parseLoop 120 none ls

/-! ## Session Reconciler (`src/process.rs`, `ensure_connection` /
`start_flutter_run`) -/

/-- External effects performed by `ensure_connection` and
`start_flutter_run`, in program order:
* `connectTo url` — `VmServiceConnection::connect(url)`;
* `loadState` — `State::load(project_dir)`;
* `probeAlive pid` — `state.is_pid_alive()` (`kill(pid, 0)`);
* `tryConnect url ms` — `vm_service::try_connect(url, ms)`, the
  bounded-time probe against a remembered endpoint;
* `pingConn` — `conn.ping()`;
* `killProc pid` — `kill_process(pid)` (SIGTERM, 500 ms, SIGKILL);
* `removeState` — `State::remove(project_dir)`;
* `spawnFlutter args` — spawning `flutter` with `args`;
* `saveState st` — `state.save(project_dir)`. -/
inductive Eff where
  | connectTo : String → Eff
  | loadState : Eff
  | probeAlive : Nat → Eff
  | tryConnect : String → Nat → Eff
  | pingConn : Eff
  | killProc : Nat → Eff
  | removeState : Eff
  | spawnFlutter : List String → Eff
  | saveState : StateRec → Eff
  deriving Repr, DecidableEq

/-- Failures of `ensure_connection` (all are `anyhow` errors in the
source; they are distinguished here by provenance). -/
inductive EErr where
  /-- storage / config IO failure propagated by `?` -/
  | ioErr : EErr
  /-- the case where `VmServiceConnection::connect` failed at `url` -/
  | connectFailed : String → EErr
  /-- the case where `Command::spawn` failed -/
  | spawnFailed : EErr
  /-- a handshake failure from `parse_flutter_machine_output` -/
  | handshake : PErr → EErr
  deriving Repr, DecidableEq

/-- Oracle answers for every foreign-world step `ensure_connection`
can take.  Functions answer for whatever value the code asks about. -/
structure Env where
  /-- result of `State::load(project_dir)` -/
  stored : Except IoErr (Option StateRec)
  /-- answer of `is_pid_alive` per pid (`kill(pid, 0) == 0`) -/
  alive : Nat → Bool
  /-- does `vm_service::try_connect(url, 3000)` succeed? -/
  probeConnect : Bool
  /-- does `conn.ping()` succeed? -/
  probePing : Bool
  /-- does `State::remove(project_dir)` succeed? -/
  removeOk : Bool
  /-- result of `Config::load(project_dir)` + `flutter_run_args()` (stderr-log
      file creation failures are folded in as the `IoErr` case) -/
  configArgs : Except IoErr (List String)
  /-- the `Command::spawn` result: the child pid -/
  spawnResult : Except IoErr Nat
  /-- timestamped stdout lines of the spawned process -/
  lines : List (Nat × LineItem)
  /-- does `state.save(project_dir)` succeed? -/
  saveOk : Bool
  /-- does `VmServiceConnection::connect(url)` succeed? -/
  connectOk : String → Bool
  /-- value of `project_dir.to_string_lossy()` -/
  cwd : String
  /-- value of `SystemTime::now()` as Unix seconds, read for `started_at` -/
  now : Nat

/-- The effects contributed by a `parse_flutter_machine_output` run:
`kill_process(pid)` precedes `State::remove` on every path where both
run. -/
def parserEffects (pid : Nat) (pr : PResult) : List Eff :=
  (if pr.killed then [.killProc pid] else [])
    ++ (if pr.removed then [.removeState] else [])

/-- Embeds `start_flutter_run` (src/process.rs lines 40-88): load config,
spawn, parse the handshake, persist a fresh record, connect to the
announced endpoint.  Returns the endpoint of the connection handed to
the caller (on success) and the effect trace. -/
def start_flutter_run (env : Env) : Except EErr String × List Eff :=
  match env.configArgs with
  | .error _ => (.error .ioErr, [])
  | .ok args =>
    match env.spawnResult with
    | .error _ => (.error .spawnFailed, [.spawnFlutter args])
    | .ok pid =>
      let pr := parse_flutter_machine_output env.lines
      let base := [Eff.spawnFlutter args] ++ parserEffects pid pr
      match pr.res with
      | .error e => (.error (.handshake e), base)
      | .ok (ws_uri, app_id) =>
        let st : StateRec := ⟨pid, ws_uri, app_id, env.cwd, args, env.now⟩
        if env.saveOk then
          if env.connectOk ws_uri then
            (.ok ws_uri, base ++ [.saveState st, .connectTo ws_uri])
          else
            (.error (.connectFailed ws_uri),
             base ++ [.saveState st, .connectTo ws_uri])
        else (.error .ioErr, base ++ [.saveState st])

/-- Embeds `ensure_connection` (src/process.rs lines 13-38): with an explicit
`url`, connect directly; otherwise reconcile the remembered session
and fall through to a fresh launch. -/
def ensure_connection (env : Env) (url : Option String) :
    Except EErr String × List Eff :=
  match url with
  | some u =>
    if env.connectOk u then (.ok u, [.connectTo u])
    else (.error (.connectFailed u), [.connectTo u])
  | none =>
    match env.stored with
    | .error _ => (.error .ioErr, [.loadState])
    | .ok none =>
      let (r, tr) := start_flutter_run env
      (r, .loadState :: tr)
    | .ok (some st) =>
      if env.alive st.pid then
        if env.probeConnect && env.probePing then
          (.ok st.ws_uri,
           [.loadState, .probeAlive st.pid, .tryConnect st.ws_uri 3000,
            .pingConn])
        else
          let probeTrace :=
            [Eff.loadState, .probeAlive st.pid, .tryConnect st.ws_uri 3000]
              ++ (if env.probeConnect then [Eff.pingConn] else [])
              ++ [Eff.killProc st.pid, .removeState]
          if env.removeOk then
            let (r, tr) := start_flutter_run env
            (r, probeTrace ++ tr)
          else (.error .ioErr, probeTrace)
      else
        let deadTrace := [Eff.loadState, .probeAlive st.pid, .removeState]
        if env.removeOk then
          let (r, tr) := start_flutter_run env
          (r, deadTrace ++ tr)
        else (.error .ioErr, deadTrace)

/-- Does a trace contain a `tryConnect` probe (the only effect that
connects to a remembered endpoint)? -/
def mentionsTryConnect : List Eff → Bool
  | [] => false
  | .tryConnect _ _ :: _ => true
  | _ :: rest => mentionsTryConnect rest

/-- Does a trace touch the session record store at all? -/
def touchesStore : List Eff → Bool
  | [] => false
  | .loadState :: _ => true
  | .removeState :: _ => true
  | .saveState _ :: _ => true
  | _ :: rest => touchesStore rest

/-- Does a trace launch, probe, or terminate any process? -/
def touchesProcess : List Eff → Bool
  | [] => false
  | .probeAlive _ :: _ => true
  | .killProc _ :: _ => true
  | .spawnFlutter _ :: _ => true
  | _ :: rest => touchesProcess rest

/-! ## Concrete fixtures and derived loop descriptions used by the
theorems below -/

def respEvent : Json := .obj [("method", .str "streamNotify")]

def respOther : Json := .obj [("id", .num 2)]

def respErr : Json :=
  .obj [("id", .num 7),
        ("error", .obj [("code", .num 100), ("message", .str "bad")])]

def respOkMsg : Json := .obj [("id", .num 7), ("result", .num 3)]

def skippedBy (id : Int) (f : Frame) : Bool :=
  match f with
  | .nonText => true
  | .readErr => true
  | .text none => false
  | .text (some resp) =>
    match resp.get "id" with
    | none => true
    | some rid => !idMatches rid id

/-- The loop of `parse_flutter_machine_output` restricted to a prefix
of the stream: either the loop finishes within the prefix with a
result, or it is still running afterwards, carrying the `app_id`
gathered so far. -/
def consumeLoop (d : Nat) (a : Option String) :
    List (Nat × LineItem) → Except PResult (Option String)
  | [] => .ok a
  | (t, item) :: rest =>
    if t > d then .error ⟨.error .startupTimeout, true, true⟩
    else
      match item with
      | .ioErr => .error ⟨.error .readErr, false, false⟩
      | .line none => consumeLoop d a rest
      | .line (some event) =>
        match dispatchEvent event a with
        | (_, _, true) => .error ⟨.error .startupAborted, false, true⟩
        | (some uri, a', false) => .error ⟨.ok (uri, a'), false, false⟩
        | (none, a', false) => consumeLoop d a' rest

def dbgPortLine : Json :=
  .arr [.obj [("event", .str "app.debugPort"),
              ("params", .obj [("wsUri", .str "ws://x"),
                               ("appId", .str "42")])]]

def stDead : StateRec :=
  ⟨4242, "ws://old", some "1", "/proj", ["run", "--machine"], 50⟩

def envDead : Env :=
  { stored := .ok (some stDead)
    alive := fun _ => false
    probeConnect := true
    probePing := true
    removeOk := true
    configArgs := .ok ["run", "--machine"]
    spawnResult := .ok 4300
    lines := [(2, .line (some dbgPortLine))]
    saveOk := true
    connectOk := fun _ => true
    cwd := "/proj"
    now := 60 }

/-! ## Theorems -/

/-- C1: for every `send`, the response loop discards parsed messages
without an `id`, discards parsed messages whose `id` differs from the
one just sent, fails with the code and message of the remote error when
the matching message carries an `error` object, returns the `result`
payload of the matching message (an empty object when the field is absent)
otherwise, and fails with `ConnectionClosed` when the stream ends
before a matching response. -/
theorem vm_send_response_loop_spec (id : Int) (resp : Json)
    (rest : List Frame) :
    recvLoop id [] = .connClosed
  ∧ (resp.get "id" = none →
      recvLoop id (.text (some resp) :: rest) = recvLoop id rest)
  ∧ (∀ rid, resp.get "id" = some rid → idMatches rid id = false →
      recvLoop id (.text (some resp) :: rest) = recvLoop id rest)
  ∧ (∀ rid err, resp.get "id" = some rid → idMatches rid id = true →
      resp.get "error" = some err →
      recvLoop id (.text (some resp) :: rest) =
        .remoteError (errCode err) (errMsg err))
  ∧ (∀ rid, resp.get "id" = some rid → idMatches rid id = true →
      resp.get "error" = none →
      recvLoop id (.text (some resp) :: rest) =
        .ok ((resp.get "result").getD (.obj []))) := by
  refine ⟨rfl, ?_, ?_, ?_, ?_⟩ <;> intros <;> simp [recvLoop, *]

/-- Witness for C1 at request id 7 and concrete inbound messages. -/
theorem vm_send_response_loop_spec_witness :
    recvLoop 7 [] = .connClosed
  ∧ recvLoop 7 [.text (some respEvent)] = recvLoop 7 []
  ∧ recvLoop 7 [.text (some respOther)] = recvLoop 7 []
  ∧ recvLoop 7 [.text (some respErr)] = .remoteError 100 "bad"
  ∧ recvLoop 7 [.text (some respOkMsg)] = .ok (.num 3) :=
  ⟨(vm_send_response_loop_spec 7 respEvent []).1,
   (vm_send_response_loop_spec 7 respEvent []).2.1 rfl,
   (vm_send_response_loop_spec 7 respOther []).2.2.1 (.num 2) rfl rfl,
   (vm_send_response_loop_spec 7 respErr []).2.2.2.1 (.num 7)
     (.obj [("code", .num 100), ("message", .str "bad")]) rfl rfl rfl,
   (vm_send_response_loop_spec 7 respOkMsg []).2.2.2.2 (.num 7) rfl rfl rfl⟩

theorem connAfter_next_id (n : Nat) :
    (connAfter n).next_id = (n : Int) + 1 := by
  induction n with
  | zero => rfl
  | succ k ih =>
    simp [connAfter, VmServiceConnection.send, ih]

/-- C6: ids start at 1 and the `n`-th `send` call is assigned id
exactly `n`; consecutive calls get consecutive ids, and no two
distinct calls share an id. -/
theorem request_ids_consecutive (n : Nat) (hn : 1 ≤ n) :
    idOfCall n = n
  ∧ idOfCall (n + 1) = idOfCall n + 1
  ∧ (∀ m, 1 ≤ m → m ≠ n → idOfCall m ≠ idOfCall n) := by
  have key : ∀ k, 1 ≤ k → idOfCall k = k := by
    intro k hk
    unfold idOfCall
    rw [connAfter_next_id]
    omega
  refine ⟨key n hn, ?_, ?_⟩
  · rw [key n hn, key (n + 1) (by omega)]
    push_cast
    ring
  · intro m hm hne
    rw [key n hn, key m hm]
    intro h
    exact hne (by exact_mod_cast h)

/-- Witness for C6 at the third call. -/
theorem request_ids_consecutive_witness :
    idOfCall 3 = 3
  ∧ idOfCall 4 = idOfCall 3 + 1
  ∧ (∀ m, 1 ≤ m → m ≠ 3 → idOfCall m ≠ idOfCall 3) :=
  request_ids_consecutive 3 (by omega)

/-- C10: non-text frames and transport read errors are skipped by the
response loop without affecting the outcome, and `ConnectionClosed` is
produced exactly when every inbound frame is skipped, i.e. when the
stream ends with no terminating text frame. -/
theorem rpc_loop_skips_nontext_frames (id : Int) (frames : List Frame) :
    recvLoop id (.nonText :: frames) = recvLoop id frames
  ∧ recvLoop id (.readErr :: frames) = recvLoop id frames
  ∧ (recvLoop id frames = .connClosed ↔
      ∀ f ∈ frames, skippedBy id f = true) := by
  refine ⟨rfl, rfl, ?_⟩
  induction frames with
  | nil => simp [recvLoop]
  | cons f rest ih =>
    cases f with
    | nonText => simpa [recvLoop, skippedBy] using ih
    | readErr => simpa [recvLoop, skippedBy] using ih
    | text o =>
      cases o with
      | none => simp [recvLoop, skippedBy]
      | some resp =>
        cases hid : resp.get "id" with
        | none => simp [recvLoop, skippedBy, hid, ih]
        | some rid =>
          by_cases hm : idMatches rid id
          · cases herr : resp.get "error" <;>
              simp [recvLoop, skippedBy, hid, hm, herr]
          · simp [recvLoop, skippedBy, hid, hm, ih]

/-- Witness for C10: skipped frames before a matching response. -/
theorem rpc_loop_skips_nontext_frames_witness :
    recvLoop 7 [.nonText, .text (some respOkMsg)] =
      recvLoop 7 [.text (some respOkMsg)]
  ∧ recvLoop 7 [.readErr, .text (some respOkMsg)] =
      recvLoop 7 [.text (some respOkMsg)]
  ∧ (recvLoop 7 [.nonText, .text (some respOkMsg)] = .connClosed ↔
      ∀ f ∈ [Frame.nonText, Frame.text (some respOkMsg)],
        skippedBy 7 f = true) :=
  ⟨(rpc_loop_skips_nontext_frames 7 [.text (some respOkMsg)]).1,
   (rpc_loop_skips_nontext_frames 7 [.text (some respOkMsg)]).2.1,
   (rpc_loop_skips_nontext_frames 7 [.nonText, .text (some respOkMsg)]).2.2⟩

/-- C7 counterexample: in the RPC response loop an unparsable text
message is NOT silently skipped: the `?` on deserialization fails the
call even though a matching response follows right behind it. -/
theorem rpc_unparsable_message_fails_cex :
    recvLoop 1 [.text (some (.obj [("id", .num 1), ("result", .num 7)]))] =
      .ok (.num 7)
  ∧ recvLoop 1 [.text none,
      .text (some (.obj [("id", .num 1), ("result", .num 7)]))] =
      .parseError
  ∧ SendOutcome.parseError ≠ .ok (.num 7) :=
  ⟨rfl, rfl, fun h => SendOutcome.noConfusion h⟩

/-- C7 amended: unparsable handshake lines are silently skipped by the
handshake parser, and the RPC response loop silently skips non-text
frames and transport read errors; but a text message that does not
parse as JSON fails the `send` call with a parse error. -/
theorem silent_tolerance_amended (d t : Nat) (a : Option String)
    (ls : List (Nat × LineItem)) (id : Int) (frames : List Frame)
    (ht : t ≤ d) :
    parseLoop d a ((t, .line none) :: ls) = parseLoop d a ls
  ∧ recvLoop id (.nonText :: frames) = recvLoop id frames
  ∧ recvLoop id (.readErr :: frames) = recvLoop id frames
  ∧ recvLoop id (.text none :: frames) = .parseError := by
  have hnt : ¬ t > d := by omega
  exact ⟨by simp [parseLoop, hnt], rfl, rfl, rfl⟩

/-- Witness for C7 (amended) at the 120-second deadline. -/
theorem silent_tolerance_amended_witness :
    parseLoop 120 none [(3, .line none)] = parseLoop 120 none []
  ∧ recvLoop 5 [.nonText] = recvLoop 5 []
  ∧ recvLoop 5 [.readErr] = recvLoop 5 []
  ∧ recvLoop 5 [.text none] = .parseError :=
  silent_tolerance_amended 120 3 none [] 5 [] (by omega)

theorem parseLoop_cleanup (d : Nat) (a : Option String)
    (ls : List (Nat × LineItem)) :
    ((parseLoop d a ls).res = .error .startupTimeout ∨
     (parseLoop d a ls).res = .error .noEndpoint →
      (parseLoop d a ls).killed = true ∧ (parseLoop d a ls).removed = true)
  ∧ ((parseLoop d a ls).res = .error .startupAborted →
      (parseLoop d a ls).removed = true) := by
  induction ls generalizing a with
  | nil => simp [parseLoop]
  | cons p rest ih =>
    obtain ⟨t, item⟩ := p
    by_cases ht : t > d
    · simp [parseLoop, ht]
    · cases item with
      | ioErr => simp [parseLoop, ht]
      | line o =>
        cases o with
        | none => simpa [parseLoop, ht] using ih a
        | some ev =>
          rcases hd : dispatchEvent ev a with ⟨uri, a', shut⟩
          cases shut with
          | true => simp [parseLoop, ht, hd]
          | false =>
            cases uri with
            | none => simpa [parseLoop, ht, hd] using ih a'
            | some u => simp [parseLoop, ht, hd]

/-- C3 counterexample: on the `app.stop` path (`StartupAborted`) the
parser removes the record but does not terminate the spawned process,
so the claimed "termination of the spawned process" does not happen on
every failure path. -/
theorem startup_aborted_skips_kill_cex :
    (parse_flutter_machine_output
        [(0, .line (some (.obj [("event", .str "app.stop")])))]).res =
      .error .startupAborted
  ∧ (parse_flutter_machine_output
        [(0, .line (some (.obj [("event", .str "app.stop")])))]).killed =
      false :=
  ⟨rfl, rfl⟩

/-- C3 amended: on the `StartupTimeout` and `NoEndpoint` failure paths
both process termination and record removal complete before the error
is returned; on the `StartupAborted` path (the process announced its
own shutdown) record removal completes before the error is returned
but the process is not killed. -/
theorem handshake_failure_cleanup (ls : List (Nat × LineItem)) :
    ((parse_flutter_machine_output ls).res = .error .startupTimeout ∨
     (parse_flutter_machine_output ls).res = .error .noEndpoint →
      (parse_flutter_machine_output ls).killed = true ∧
      (parse_flutter_machine_output ls).removed = true)
  ∧ ((parse_flutter_machine_output ls).res = .error .startupAborted →
      (parse_flutter_machine_output ls).removed = true) :=
  parseLoop_cleanup 120 none ls

/-- Witness for C3 (amended): the empty stream hits `NoEndpoint` with
both cleanup steps done; `app.stop` hits `StartupAborted` with the
record removed. -/
theorem handshake_failure_cleanup_witness :
    ((parse_flutter_machine_output []).killed = true ∧
     (parse_flutter_machine_output []).removed = true)
  ∧ (parse_flutter_machine_output
        [(0, .line (some (.obj [("event", .str "app.stop")])))]).removed =
      true :=
  ⟨(handshake_failure_cleanup []).1 (Or.inr rfl),
   (handshake_failure_cleanup
      [(0, .line (some (.obj [("event", .str "app.stop")])))]).2 rfl⟩

theorem parseLoop_append (d : Nat) (a : Option String)
    (pre suf : List (Nat × LineItem)) :
    parseLoop d a (pre ++ suf) =
      match consumeLoop d a pre with
      | .error r => r
      | .ok a' => parseLoop d a' suf := by
  induction pre generalizing a with
  | nil => rfl
  | cons p rest ih =>
    obtain ⟨t, item⟩ := p
    by_cases ht : t > d
    · simp [parseLoop, consumeLoop, ht]
    · cases item with
      | ioErr => simp [parseLoop, consumeLoop, ht]
      | line o =>
        cases o with
        | none => simpa [parseLoop, consumeLoop, ht] using ih a
        | some ev =>
          rcases hd : dispatchEvent ev a with ⟨uri, a', shut⟩
          cases shut with
          | true => simp [parseLoop, consumeLoop, ht, hd]
          | false =>
            cases uri with
            | none => simpa [parseLoop, consumeLoop, ht, hd] using ih a'
            | some u => simp [parseLoop, consumeLoop, ht, hd]

/-- C4: in every run in which a line arrives after the 120-second
deadline while the loop is still waiting for an endpoint (the prefix
read so far produced neither an endpoint nor a terminating event), the
parser kills the spawned process, removes the record, and fails with
`StartupTimeout`. -/
theorem startup_timeout_kills (pre rest : List (Nat × LineItem))
    (a : Option String) (t : Nat) (item : LineItem)
    (hpre : consumeLoop 120 none pre = .ok a) (ht : t > 120) :
    parse_flutter_machine_output (pre ++ (t, item) :: rest) =
      ⟨.error .startupTimeout, true, true⟩ := by
  unfold parse_flutter_machine_output
  rw [parseLoop_append, hpre]
  simp [parseLoop, ht]

/-- Witness for C4: an unparsable banner line, then a line arriving
after the deadline. -/
theorem startup_timeout_kills_witness :
    parse_flutter_machine_output
        [(0, .line none), (121, .line none)] =
      ⟨.error .startupTimeout, true, true⟩ :=
  startup_timeout_kills [(0, .line none)] [] none 121 (.line none)
    rfl (by omega)

/-- C5: in every handshake stream in which some line parses as a
structured event carrying an endpoint (`app.debugPort` with a `wsUri`,
possibly wrapped in a single-element array) — after any preamble the
loop reads through while still waiting, with `a` the `app_id` state
accumulated over that preamble — the parser returns that endpoint and
the optional application id immediately, whatever the rest of the
stream holds. -/
theorem debug_port_returns_immediately (pre rest : List (Nat × LineItem))
    (a a' : Option String) (t : Nat) (ev : Json) (uri : String)
    (hpre : consumeLoop 120 none pre = .ok a) (ht : t ≤ 120)
    (hev : dispatchEvent ev a = (some uri, a', false)) :
    parse_flutter_machine_output (pre ++ (t, .line (some ev)) :: rest) =
      ⟨.ok (uri, a'), false, false⟩ := by
  have hnt : ¬ t > 120 := by omega
  unfold parse_flutter_machine_output
  rw [parseLoop_append, hpre]
  simp [parseLoop, hnt, hev]

/-- Witness for C5 on the concrete example from the spec, preceded by
a preamble (an unparsable banner line and a `daemon.connected` event):
the array-wrapped `app.debugPort` line followed by an `app.started`
line returns `("ws://x", some "42")` without the ready event being
consumed. -/
theorem debug_port_returns_immediately_witness :
    parse_flutter_machine_output
        [(0, .line none),
         (1, .line (some (.obj [("event", .str "daemon.connected")]))),
         (2, .line (some dbgPortLine)),
         (3, .line (some (.obj [("event", .str "app.started")])))] =
      ⟨.ok ("ws://x", some "42"), false, false⟩ :=
  debug_port_returns_immediately
    [(0, .line none),
     (1, .line (some (.obj [("event", .str "daemon.connected")])))]
    [(3, .line (some (.obj [("event", .str "app.started")])))]
    none (some "42") 2 dbgPortLine "ws://x" rfl (by omega) rfl

theorem mentionsTryConnect_append (xs ys : List Eff) :
    mentionsTryConnect (xs ++ ys) =
      (mentionsTryConnect xs || mentionsTryConnect ys) := by
  induction xs with
  | nil => simp [mentionsTryConnect]
  | cons x rest ih => cases x <;> simp [mentionsTryConnect, ih]

theorem mentionsTryConnect_parserEffects (pid : Nat) (pr : PResult) :
    mentionsTryConnect (parserEffects pid pr) = false := by
  cases hk : pr.killed <;> cases hr : pr.removed <;>
    simp [parserEffects, mentionsTryConnect, hk, hr]

theorem start_flutter_run_no_tryConnect (env : Env) :
    mentionsTryConnect (start_flutter_run env).2 = false := by
  unfold start_flutter_run
  rcases hc : env.configArgs with e | args
  · simp [hc, mentionsTryConnect]
  · rcases hs : env.spawnResult with e | pid
    · simp [hc, hs, mentionsTryConnect]
    · rcases hr : (parse_flutter_machine_output env.lines).res with e | pr
      · simp [hc, hs, hr, mentionsTryConnect, mentionsTryConnect_append,
              mentionsTryConnect_parserEffects]
      · obtain ⟨uri, ai⟩ := pr
        by_cases hsv : env.saveOk <;> by_cases hco : env.connectOk uri <;>
          simp [hc, hs, hr, hsv, hco, mentionsTryConnect,
                mentionsTryConnect_append, mentionsTryConnect_parserEffects]

/-- C2: with no explicit endpoint, a remembered record whose process
id is not alive makes `ensure_connection` remove the record and fall
through to a fresh launch; no `try_connect` probe against the recorded
endpoint is ever performed (the fresh launch connects only to the
endpoint its own handshake announces). -/
theorem ensure_connection_dead_pid_relaunches (env : Env) (st : StateRec)
    (hst : env.stored = .ok (some st)) (hdead : env.alive st.pid = false)
    (hrm : env.removeOk = true) :
    ensure_connection env none =
      ((start_flutter_run env).1,
       [Eff.loadState, .probeAlive st.pid, .removeState]
         ++ (start_flutter_run env).2)
  ∧ mentionsTryConnect (ensure_connection env none).2 = false := by
  rcases hlaunch : start_flutter_run env with ⟨r, tr⟩
  have h1 : ensure_connection env none =
      (r, [Eff.loadState, .probeAlive st.pid, .removeState] ++ tr) := by
    simp [ensure_connection, hst, hdead, hrm, hlaunch]
  constructor
  · simp [h1, hlaunch]
  · rw [h1]
    have h2 := start_flutter_run_no_tryConnect env
    rw [hlaunch] at h2
    simpa [mentionsTryConnect_append, mentionsTryConnect] using h2

/-- Witness for C2: a concrete environment with a remembered record
whose process is dead. -/
theorem ensure_connection_dead_pid_relaunches_witness :
    ensure_connection envDead none =
      ((start_flutter_run envDead).1,
       [Eff.loadState, .probeAlive stDead.pid, .removeState]
         ++ (start_flutter_run envDead).2)
  ∧ mentionsTryConnect (ensure_connection envDead none).2 = false :=
  ensure_connection_dead_pid_relaunches envDead stDead rfl rfl rfl

/-- C9: with an explicit endpoint supplied, `ensure_connection`
performs exactly one effect — connecting to that endpoint — so the
session record store is neither read nor written and no process is
launched, probed, or terminated, whatever records or processes exist. -/
theorem ensure_connection_explicit_url_frame (env : Env) (u : String) :
    (ensure_connection env (some u)).2 = [.connectTo u]
  ∧ (ensure_connection env (some u)).1 =
      (if env.connectOk u then .ok u else .error (.connectFailed u))
  ∧ touchesStore (ensure_connection env (some u)).2 = false
  ∧ touchesProcess (ensure_connection env (some u)).2 = false := by
  by_cases h : env.connectOk u <;>
    simp [ensure_connection, h, touchesStore, touchesProcess]

theorem mapM_loop_asStr (l acc : List String) :
    List.mapM.loop Json.asStr (l.map Json.str) acc =
      some (acc.reverse ++ l) := by
  induction l generalizing acc with
  | nil => simp [List.mapM.loop]
  | cons x xs ih => simp [List.mapM.loop, Json.asStr, ih]

theorem decodeU32_encode (pid : Nat) (h : pid < 2 ^ 32) :
    decodeU32 (Json.num pid) = some pid := by
  simp [decodeU32]
  omega

theorem decodeU64_encode (t : Nat) (h : t < 2 ^ 64) :
    decodeU64 (Json.num t) = some t := by
  simp [decodeU64]
  omega

theorem decodeStrList_encode (l : List String) :
    decodeStrList (Json.arr (l.map Json.str)) = some l := by
  simp [decodeStrList]
  exact mapM_loop_asStr l []

theorem decodeState_encodeState (s : StateRec) (hpid : s.pid < 2 ^ 32)
    (hts : s.started_at < 2 ^ 64) :
    decodeState (encodeState s) = some s := by
  obtain ⟨pid, ws_uri, app_id, cwd, args, started_at⟩ := s
  simp only at hpid hts
  cases app_id <;>
    simp only [decodeState, encodeState, Json.get, List.lookup,
      String.reduceBEq, beq_self_eq_true, Option.some_bind,
      decodeU32_encode pid hpid, decodeU64_encode started_at hts,
      decodeStrList_encode, decodeOptStr, Json.asStr] <;>
    rfl

/-- C8: for every file-name derivation, file system, project identity
and in-range record, `save` followed by `load` on the same identity
returns a record equal in all fields to the one saved. -/
theorem state_save_load_roundtrip (pathOf : String → String) (fs : Fs)
    (dir : String) (s : StateRec) (hpid : s.pid < 2 ^ 32)
    (hts : s.started_at < 2 ^ 64) :
    StateRec.load pathOf (StateRec.save pathOf fs dir s) dir =
      .ok (some s) := by
  simp [StateRec.load, StateRec.save, List.lookup,
        decodeState_encodeState s hpid hts]

/-- Witness for C8 on a concrete record and nonempty prior store. -/
theorem state_save_load_roundtrip_witness :
    StateRec.load (fun d => d)
        (StateRec.save (fun d => d) [("other", Json.null)] "/proj"
          ⟨4242, "ws://127.0.0.1:1234/abc", some "1", "/proj",
           ["run", "--machine"], 1700000000⟩)
        "/proj" =
      .ok (some ⟨4242, "ws://127.0.0.1:1234/abc", some "1", "/proj",
                 ["run", "--machine"], 1700000000⟩) :=
  state_save_load_roundtrip (fun d => d) [("other", Json.null)] "/proj"
    ⟨4242, "ws://127.0.0.1:1234/abc", some "1", "/proj",
     ["run", "--machine"], 1700000000⟩
    (by norm_num) (by norm_num)
